import Mathlib

/-!
Verification of the register semantics, indirect-access protocol and
advertisement translation of the `ieee802_3_miim` crate.

Registers are 16-bit words modelled as `Nat` values kept below `2 ^ 16`.
The bitflags operations (`contains`, `insert`, `remove`, `from_bits_truncate`)
of the `bitflags 1.x` crate are modelled bit-exactly on `Nat`.
The management transport (`Mii`) is modelled as an oracle `Nat → Nat`
giving the value returned by the i-th register read, together with an
event log recording every register access in order.
-/

namespace Miim

/-- bitflags `contains`: every bit of `f` is set in `x`. -/
def containsBits (x f : Nat) : Bool := x &&& f == f

/-- bitflags `insert`: set all bits of `f`. -/
def insertBits (x f : Nat) : Nat := x ||| f

/-- bitflags `remove`: clear all bits of `f` (16-bit complement). -/
def removeBits (x f : Nat) : Nat := x &&& (65535 ^^^ f)

/-- bitflags boolean set: `insert` when `b`, `remove` otherwise
(the `impl_flag!` setter pattern of `registers.rs`). -/
def setFlag (x f : Nat) (b : Bool) : Nat := if b then insertBits x f else removeBits x f

namespace Bcr

def RESET : Nat := 1 <<< 15
def LOOPBACK : Nat := 1 <<< 14
def SPEED_SEL_LSB : Nat := 1 <<< 13
def AUTONEG_ENABLE : Nat := 1 <<< 12
def POWER_DOWN : Nat := 1 <<< 11
def ISOLATE : Nat := 1 <<< 10
def RESTART_AUTONEG : Nat := 1 <<< 9
def DUPLEX_MODE : Nat := 1 <<< 8
def COLLISION_TEST : Nat := 1 <<< 7
def SPEED_SEL_MSB : Nat := 1 <<< 6
def UNIDIRECTIONAL_ENABLE : Nat := 1 <<< 5

/-- Union of all named `Bcr` flags (bitflags `Bcr::all()`). -/
def all : Nat :=
  RESET ||| LOOPBACK ||| SPEED_SEL_LSB ||| AUTONEG_ENABLE ||| POWER_DOWN |||
  ISOLATE ||| RESTART_AUTONEG ||| DUPLEX_MODE ||| COLLISION_TEST |||
  SPEED_SEL_MSB ||| UNIDIRECTIONAL_ENABLE

def ADDRESS : Nat := 0

/-- bitflags `Bcr::from_bits_truncate`: drop bits of no named flag. -/
def fromBitsTruncate (v : Nat) : Nat := v &&& all

end Bcr

namespace Bsr

def _100BASET4 : Nat := 1 <<< 15
def _100BASEXFD : Nat := 1 <<< 14
def _100BASEXHD : Nat := 1 <<< 13
def _10MPBSFD : Nat := 1 <<< 12
def _10MBPSHD : Nat := 1 <<< 11
def _100BASET2FD : Nat := 1 <<< 10
def _100BASET2HD : Nat := 1 <<< 9
def EXTENDED_STATUS : Nat := 1 <<< 8
def UNIDRECTIONAL : Nat := 1 <<< 7
def MF_PREAMBLE_SUPPRESSION : Nat := 1 <<< 6
def AUTONEG_COMPLETE : Nat := 1 <<< 5
def REMOTE_FAULT : Nat := 1 <<< 4
def AUTONEG_ABLE : Nat := 1 <<< 3
def LINK_STATUS : Nat := 1 <<< 2
def JABBER_DETECT : Nat := 1 <<< 1
def EXTENDED_CAPABILITIES : Nat := 1 <<< 0

/-- Union of all named `Bsr` flags (bitflags `Bsr::all()`). -/
def all : Nat :=
  _100BASET4 ||| _100BASEXFD ||| _100BASEXHD ||| _10MPBSFD ||| _10MBPSHD |||
  _100BASET2FD ||| _100BASET2HD ||| EXTENDED_STATUS ||| UNIDRECTIONAL |||
  MF_PREAMBLE_SUPPRESSION ||| AUTONEG_COMPLETE ||| REMOTE_FAULT |||
  AUTONEG_ABLE ||| LINK_STATUS ||| JABBER_DETECT ||| EXTENDED_CAPABILITIES

def ADDRESS : Nat := 1

/-- bitflags `Bsr::from_bits_truncate`. -/
def fromBitsTruncate (v : Nat) : Nat := v &&& all

end Bsr

namespace AutoNegCap

def TECH_ABILITY_OFFSET : Nat := 5

def NEXT_PAGE : Nat := 1 <<< 15
def REMOTE_FAULT : Nat := 1 <<< 13
def EXTENDED_NEXT_PAGE : Nat := 1 <<< 12
def _10BASET : Nat := 1 <<< (TECH_ABILITY_OFFSET + 6)
def _10BASETFD : Nat := 1 <<< (TECH_ABILITY_OFFSET + 5)
def _100BASETX : Nat := 1 <<< (TECH_ABILITY_OFFSET + 4)
def _100BASETXFD : Nat := (1 <<< TECH_ABILITY_OFFSET) <<< 3
def _100BASET4 : Nat := 1 <<< (TECH_ABILITY_OFFSET + 2)
def PAUSE : Nat := 1 <<< (TECH_ABILITY_OFFSET + 1)
def ASSYMETRIC_PAUSE : Nat := 1 <<< TECH_ABILITY_OFFSET

def SEL_802_3 : Nat := 1
def SEL_802_9_ISLAN_16T : Nat := 2
def SEL_802_5 : Nat := 3
def SEL_1394 : Nat := 5

def LOCAL_CAP_ADDRESS : Nat := 4
def PARTNER_CAP_ADDRESS : Nat := 5

end AutoNegCap

namespace MmdAddress

def ADDRESS : Nat := 0 <<< 14
def DATA_NO_POSTINC : Nat := 1 <<< 14
def CONTROL_ADDRESS : Nat := 13
def DATA_ADRESS_ADDRESS : Nat := 14
def DEVAD_MASK : Nat := 31

/-- `MmdAddress::device_address`: the ADDRESS-mode control word with the
device address masked to 5 bits written into the low field. -/
def deviceAddress (d : Nat) : Nat := ADDRESS ||| (d &&& DEVAD_MASK)

end MmdAddress

/-- The semantic status struct (`PhyStatus` in `lib.rs`). -/
structure PhyStatus where
  base100_t4 : Bool
  fd_100base_x : Bool
  hd_100base_x : Bool
  fd_10mbps : Bool
  hd_10mbps : Bool
  extended_status : Bool
  unidirectional : Bool
  preamble_suppression : Bool
  autonegotiation : Bool
  extended_caps : Bool
deriving DecidableEq

/-- The selector field enum (`SelectorField` in `lib.rs`). -/
inductive SelectorField where
  | Std802_3
  | Std802_9Islan16t
  | Std802_5
  | Std1394
deriving DecidableEq

/-- The pause mode enum (`Pause` in `lib.rs`). -/
inductive Pause where
  | NoPause
  | AsymmetricPartner
  | Symmetric
  | SymmetricAndAsymmetricLocal
deriving DecidableEq

/-- The link speed enum (`LinkSpeed` in `lib.rs`). -/
inductive LinkSpeed where
  | Mpbs1000
  | Mbps100
  | Mpbs10
  | Illegal
deriving DecidableEq

/-- The advertisement struct (`AutoNegotiationAdvertisement` in `lib.rs`). -/
structure AutoNegotiationAdvertisement where
  selector_field : SelectorField
  hd_10base_t : Bool
  fd_10base_t : Bool
  hd_100base_tx : Bool
  fd_100base_tx : Bool
  base100_t4 : Bool
  pause : Pause
deriving DecidableEq

/-- `AutoNegotiationAdvertisement::default()`: 802.3 selector, no
technology abilities, no pause. -/
def defaultAdvertisement : AutoNegotiationAdvertisement :=
  { selector_field := SelectorField.Std802_3
    hd_10base_t := false
    fd_10base_t := false
    hd_100base_tx := false
    fd_100base_tx := false
    base100_t4 := false
    pause := Pause.NoPause }

/-- `impl From<Bcr> for LinkSpeed`: decode the two speed-selector bits. -/
def linkSpeedOfBcr (bcr : Nat) : LinkSpeed :=
  match containsBits bcr Bcr.SPEED_SEL_MSB, containsBits bcr Bcr.SPEED_SEL_LSB with
  | true, true => LinkSpeed.Illegal
  | true, false => LinkSpeed.Mpbs1000
  | false, true => LinkSpeed.Mbps100
  | false, false => LinkSpeed.Mpbs10

/-- `impl From<LinkSpeed> for Bcr`: encode a link speed; the source
panics on `Illegal`, modelled as `none`. -/
def bcrOfLinkSpeed : LinkSpeed → Option Nat
  | LinkSpeed.Mpbs1000 => some Bcr.SPEED_SEL_MSB
  | LinkSpeed.Mbps100 => some Bcr.SPEED_SEL_LSB
  | LinkSpeed.Mpbs10 => some 0
  | LinkSpeed.Illegal => none

/-- `impl From<AutoNegCap> for SelectorField`: decode by testing the
selector patterns in source order; the source panics when no pattern is
contained, modelled as `none`. -/
def selectorOfCap (ana : Nat) : Option SelectorField :=
  if containsBits ana AutoNegCap.SEL_802_3 then some SelectorField.Std802_3
  else if containsBits ana AutoNegCap.SEL_802_5 then some SelectorField.Std802_5
  else if containsBits ana AutoNegCap.SEL_802_9_ISLAN_16T then some SelectorField.Std802_9Islan16t
  else if containsBits ana AutoNegCap.SEL_1394 then some SelectorField.Std1394
  else none

/-- `impl From<SelectorField> for AutoNegCap`. -/
def capOfSelectorField : SelectorField → Nat
  | SelectorField.Std802_3 => AutoNegCap.SEL_802_3
  | SelectorField.Std802_9Islan16t => AutoNegCap.SEL_802_9_ISLAN_16T
  | SelectorField.Std802_5 => AutoNegCap.SEL_802_5
  | SelectorField.Std1394 => AutoNegCap.SEL_1394

/-- `impl From<AutoNegCap> for Pause`: the source matches on the pair
`(contains ASSYMETRIC_PAUSE, contains PAUSE)` in that order. -/
def pauseOfCap (ana : Nat) : Pause :=
  match containsBits ana AutoNegCap.ASSYMETRIC_PAUSE, containsBits ana AutoNegCap.PAUSE with
  | false, false => Pause.NoPause
  | true, false => Pause.AsymmetricPartner
  | false, true => Pause.Symmetric
  | true, true => Pause.SymmetricAndAsymmetricLocal

/-- `impl From<Pause> for AutoNegCap`. -/
def capOfPause : Pause → Nat
  | Pause.NoPause => 0
  | Pause.AsymmetricPartner => AutoNegCap.ASSYMETRIC_PAUSE
  | Pause.Symmetric => AutoNegCap.PAUSE
  | Pause.SymmetricAndAsymmetricLocal => AutoNegCap.ASSYMETRIC_PAUSE ||| AutoNegCap.PAUSE

/-- Modelled from the spec: `Bsr::status` is called by `Phy::status` in
`lib.rs` but its body is not part of the sources at hand.  Per the spec,
`SemanticPhyStatus` is a plain struct mirroring the Status register's
capability bits in named boolean fields (100BASE-T4, 100BASE-X
full/half, 10 Mb/s full/half, extended-status-present,
unidirectional-capable, preamble-suppression-capable, autoneg-capable,
extended-capabilities-present), decoded from the named `Bsr` flags. -/
def statusOfBsr (bsr : Nat) : PhyStatus :=
  { base100_t4 := containsBits bsr Bsr._100BASET4
    fd_100base_x := containsBits bsr Bsr._100BASEXFD
    hd_100base_x := containsBits bsr Bsr._100BASEXHD
    fd_10mbps := containsBits bsr Bsr._10MPBSFD
    hd_10mbps := containsBits bsr Bsr._10MBPSHD
    extended_status := containsBits bsr Bsr.EXTENDED_STATUS
    unidirectional := containsBits bsr Bsr.UNIDRECTIONAL
    preamble_suppression := containsBits bsr Bsr.MF_PREAMBLE_SUPPRESSION
    autonegotiation := containsBits bsr Bsr.AUTONEG_ABLE
    extended_caps := containsBits bsr Bsr.EXTENDED_CAPABILITIES }

/-- A register access observed on the management bus. -/
inductive Event where
  | read (reg val : Nat)
  | write (reg val : Nat)
deriving DecidableEq

/-- Is the event a write? -/
def Event.isWrite : Event → Bool
  | Event.write _ _ => true
  | Event.read _ _ => false

/-- The PHY seen through its transport: an oracle giving the value
returned by the i-th read, the number of reads performed so far, and
the ordered log of bus events. -/
structure PhyState where
  oracle : Nat → Nat
  idx : Nat
  log : List Event

def PhyState.start (oracle : Nat → Nat) : PhyState :=
  { oracle := oracle, idx := 0, log := [] }

/-- `Phy::read`: one transport read, returning a 16-bit value. -/
def PhyState.readReg (s : PhyState) (reg : Nat) : Nat × PhyState :=
  let v := s.oracle s.idx % 65536
  (v, { s with idx := s.idx + 1, log := s.log ++ [Event.read reg v] })

/-- `Phy::write`: one transport write. -/
def PhyState.writeReg (s : PhyState) (reg v : Nat) : PhyState :=
  { s with log := s.log ++ [Event.write reg v] }

/-- `Phy::bcr`: read register 0, truncated to the named `Bcr` bits. -/
def phyBcr (s : PhyState) : Nat × PhyState :=
  let (v, t) := s.readReg Bcr.ADDRESS
  (Bcr.fromBitsTruncate v, t)

/-- `Phy::bsr`: read register 1, truncated to the named `Bsr` bits. -/
def phyBsr (s : PhyState) : Nat × PhyState :=
  let (v, t) := s.readReg Bsr.ADDRESS
  (Bsr.fromBitsTruncate v, t)

/-- `Phy::modify_bcr`: read the BCR, apply `f`, write the result back. -/
def modifyBcr (s : PhyState) (f : Nat → Nat) : PhyState :=
  let (b, t) := phyBcr s
  t.writeReg Bcr.ADDRESS (f b)

/-- `Phy::set_loopback` (from the `flag!` macro). -/
def setLoopback (s : PhyState) (b : Bool) : PhyState :=
  modifyBcr s (fun x => setFlag x Bcr.LOOPBACK b)

/-- `Phy::set_autonegotiation` (from the `flag!` macro). -/
def setAutonegotiation (s : PhyState) (b : Bool) : PhyState :=
  modifyBcr s (fun x => setFlag x Bcr.AUTONEG_ENABLE b)

/-- `Phy::set_powered_down` (from the `flag!` macro). -/
def setPoweredDown (s : PhyState) (b : Bool) : PhyState :=
  modifyBcr s (fun x => setFlag x Bcr.POWER_DOWN b)

/-- `Phy::set_isolated` (from the `flag!` macro). -/
def setIsolated (s : PhyState) (b : Bool) : PhyState :=
  modifyBcr s (fun x => setFlag x Bcr.ISOLATE b)

/-- `Phy::set_collision_test` (from the `flag!` macro). -/
def setCollisionTest (s : PhyState) (b : Bool) : PhyState :=
  modifyBcr s (fun x => setFlag x Bcr.COLLISION_TEST b)

/-- `Phy::set_unidirectional` (from the `flag!` macro). -/
def setUnidirectional (s : PhyState) (b : Bool) : PhyState :=
  modifyBcr s (fun x => setFlag x Bcr.UNIDIRECTIONAL_ENABLE b)

/-- `Phy::set_full_duplex`. -/
def setFullDuplex (s : PhyState) (b : Bool) : PhyState :=
  modifyBcr s (fun x => setFlag x Bcr.DUPLEX_MODE b)

/-- `Phy::restart_autonegotiation`: inserts RESTART_AUTONEG. -/
def restartAutonegotiation (s : PhyState) : PhyState :=
  modifyBcr s (fun x => insertBits x Bcr.RESTART_AUTONEG)

/-- `Phy::reset`: sets the RESET bit via read-modify-write. -/
def resetPhy (s : PhyState) : PhyState :=
  modifyBcr s (fun x => setFlag x Bcr.RESET true)

/-- `Phy::set_link_speed`: removes both speed-selector bits, inserts the
encoding of the requested speed; `none` when the encode panics
(`Illegal`). -/
def setLinkSpeed (s : PhyState) (ls : LinkSpeed) : Option PhyState :=
  (bcrOfLinkSpeed ls).map fun w =>
    modifyBcr s (fun x => insertBits (removeBits x (Bcr.SPEED_SEL_MSB ||| Bcr.SPEED_SEL_LSB)) w)

/-- The capability word built by `Phy::set_autonegotiation_advertisement`
(the sequence of `insert` calls on an empty `AutoNegCap`). -/
def anaWord (st : PhyStatus) (ad : AutoNegotiationAdvertisement) : Nat :=
  let a := 0
  let a := if ad.hd_10base_t && st.hd_10mbps then insertBits a AutoNegCap._10BASET else a
  let a := if ad.fd_10base_t && st.fd_10mbps then insertBits a AutoNegCap._10BASETFD else a
  let a := if ad.hd_100base_tx && st.hd_100base_x then insertBits a AutoNegCap._100BASETX else a
  let a := if ad.fd_100base_tx && st.fd_100base_x then insertBits a AutoNegCap._100BASETXFD else a
  let a := if ad.base100_t4 then insertBits a AutoNegCap._100BASET4 else a
  let a := insertBits a (capOfSelectorField ad.selector_field)
  insertBits a (capOfPause ad.pause)

/-- `Phy::set_autonegotiation_advertisement` exactly as written in
`lib.rs`: read the status, return early when `extended_caps` is true,
otherwise build the capability word and write it to register 4. -/
def setAutonegotiationAdvertisement (s : PhyState) (ad : AutoNegotiationAdvertisement) :
    PhyState :=
  let (v, t) := phyBsr s
  let st := statusOfBsr v
  if st.extended_caps then t
  else t.writeReg AutoNegCap.LOCAL_CAP_ADDRESS (anaWord st ad)

/-- `Mmd::read`: the ordered four-step indirect access, returning the
data register's value. -/
def mmdRead (s : PhyState) (d r : Nat) : Nat × PhyState :=
  let ctrl := MmdAddress.deviceAddress d
  let s1 := s.writeReg MmdAddress.CONTROL_ADDRESS ctrl
  let s2 := s1.writeReg MmdAddress.DATA_ADRESS_ADDRESS (r % 65536)
  let ctrl2 := insertBits (removeBits ctrl MmdAddress.ADDRESS) MmdAddress.DATA_NO_POSTINC
  let s3 := s2.writeReg MmdAddress.CONTROL_ADDRESS ctrl2
  s3.readReg MmdAddress.DATA_ADRESS_ADDRESS

/-- `Mmd::write`: the same three control writes followed by a data
register write. -/
def mmdWrite (s : PhyState) (d r v : Nat) : PhyState :=
  let ctrl := MmdAddress.deviceAddress d
  let s1 := s.writeReg MmdAddress.CONTROL_ADDRESS ctrl
  let s2 := s1.writeReg MmdAddress.DATA_ADRESS_ADDRESS (r % 65536)
  let ctrl2 := insertBits (removeBits ctrl MmdAddress.ADDRESS) MmdAddress.DATA_NO_POSTINC
  let s3 := s2.writeReg MmdAddress.CONTROL_ADDRESS ctrl2
  s3.writeReg MmdAddress.DATA_ADRESS_ADDRESS (v % 65536)

/-- Does this (possibly truncated) control-register value report the
RESET bit, as `Phy::is_resetting` checks it for one poll? -/
def resetBitSet (v : Nat) : Bool :=
  containsBits (Bcr.fromBitsTruncate (v % 65536)) Bcr.RESET

/-- The polling loop of `Phy::blocking_reset` with explicit fuel: each
poll reads register 0; the loop stops at the first read whose RESET bit
is clear, and the ordered list of poll events is returned. -/
def pollEvents (f : Nat → Nat) : Nat → Option (List Event)
  | 0 => none
  | fuel + 1 =>
    let v := f 0 % 65536
    if containsBits (Bcr.fromBitsTruncate v) Bcr.RESET then
      (pollEvents (fun k => f (k + 1)) fuel).map (fun l => Event.read 0 v :: l)
    else some [Event.read 0 v]

/-- `Phy::blocking_reset`: the RESET read-modify-write followed by the
polling loop; the full bus log is returned when the loop stops within
`fuel` polls. -/
def blockingReset (oracle : Nat → Nat) (fuel : Nat) : Option (List Event) :=
  let v0 := oracle 0 % 65536
  let w0 := insertBits (Bcr.fromBitsTruncate v0) Bcr.RESET
  (pollEvents (fun k => oracle (k + 1)) fuel).map
    (fun l => Event.read 0 v0 :: Event.write 0 w0 :: l)

/-- The read-modify-write contract of a Control-register mutator: the
log is one read of register 0 followed by one write of `w`, the write
agrees with the read on every named bit outside `modified`, and every
bit outside the named `Bcr` flags is written as zero. -/
def bcrRmw (s : PhyState) (v w modified : Nat) : Prop :=
  s.log = [Event.read 0 v, Event.write 0 w] ∧
  w &&& (Bcr.all ^^^ modified) = v &&& (Bcr.all ^^^ modified) ∧
  w &&& (65535 ^^^ Bcr.all) = 0

end Miim

namespace Miim

/-! ## Helper lemmas on `Nat` bitwise operations -/

theorem lor_and_distrib (a b c : Nat) : (a ||| b) &&& c = a &&& c ||| b &&& c := by
  rw [Nat.and_comm, Nat.and_or_distrib_left, Nat.and_comm c a, Nat.and_comm c b]

theorem frame_or_of (v A F m : Nat) (h1 : A &&& m = m) (h2 : F &&& m = 0) :
    ((v &&& A) ||| F) &&& m = v &&& m := by
  rw [lor_and_distrib, Nat.and_assoc, h1, h2, Nat.or_zero]

theorem frame_and_of (v A C m : Nat) (h1 : A &&& (C &&& m) = m) :
    ((v &&& A) &&& C) &&& m = v &&& m := by
  rw [Nat.and_assoc, Nat.and_assoc, h1]

theorem zero_or_of (v A F m : Nat) (h1 : A &&& m = 0) (h2 : F &&& m = 0) :
    ((v &&& A) ||| F) &&& m = 0 := by
  rw [lor_and_distrib, Nat.and_assoc, h1, Nat.and_zero, h2, Nat.or_zero]

theorem zero_and_of (v A C m : Nat) (h1 : A &&& (C &&& m) = 0) :
    ((v &&& A) &&& C) &&& m = 0 := by
  rw [Nat.and_assoc, Nat.and_assoc, h1, Nat.and_zero]

theorem frame_and_or_of (v A C F m : Nat) (h1 : A &&& (C &&& m) = m) (h2 : F &&& m = 0) :
    (((v &&& A) &&& C) ||| F) &&& m = v &&& m := by
  rw [lor_and_distrib, Nat.and_assoc, Nat.and_assoc, h1, h2, Nat.or_zero]

theorem zero_and_or_of (v A C F m : Nat) (h1 : A &&& (C &&& m) = 0) (h2 : F &&& m = 0) :
    (((v &&& A) &&& C) ||| F) &&& m = 0 := by
  rw [lor_and_distrib, Nat.and_assoc, Nat.and_assoc, h1, Nat.and_zero, h2, Nat.or_zero]

end Miim

/-- C4 (counterexample): the capability word 64 has the PAUSE bit set and
the asymmetric-pause bit clear, so the claim's table row (1,0) — first
component the PAUSE bit — predicts `AsymmetricPartner`, but the decode
yields `Symmetric`. -/
theorem Miim.pause_decode_claim_false :
    Miim.containsBits 64 Miim.AutoNegCap.PAUSE = true ∧
    Miim.containsBits 64 Miim.AutoNegCap.ASSYMETRIC_PAUSE = false ∧
    Miim.pauseOfCap 64 ≠ Miim.Pause.AsymmetricPartner ∧
    Miim.pauseOfCap 64 = Miim.Pause.Symmetric := by
  refine ⟨by decide, by decide, by decide, by decide⟩

/-- C4 (amended): pause decode maps the 2-bit combination per the table
(0,0) → NoPause, (1,0) → AsymmetricPartner, (0,1) → Symmetric,
(1,1) → SymmetricAndAsymmetricLocal, where the FIRST tuple component is
the asymmetric-pause bit and the SECOND is the PAUSE bit. -/
theorem Miim.pause_decode_table (x : Nat) :
    ((Miim.containsBits x Miim.AutoNegCap.ASSYMETRIC_PAUSE = false ∧
      Miim.containsBits x Miim.AutoNegCap.PAUSE = false) →
      Miim.pauseOfCap x = Miim.Pause.NoPause) ∧
    ((Miim.containsBits x Miim.AutoNegCap.ASSYMETRIC_PAUSE = true ∧
      Miim.containsBits x Miim.AutoNegCap.PAUSE = false) →
      Miim.pauseOfCap x = Miim.Pause.AsymmetricPartner) ∧
    ((Miim.containsBits x Miim.AutoNegCap.ASSYMETRIC_PAUSE = false ∧
      Miim.containsBits x Miim.AutoNegCap.PAUSE = true) →
      Miim.pauseOfCap x = Miim.Pause.Symmetric) ∧
    ((Miim.containsBits x Miim.AutoNegCap.ASSYMETRIC_PAUSE = true ∧
      Miim.containsBits x Miim.AutoNegCap.PAUSE = true) →
      Miim.pauseOfCap x = Miim.Pause.SymmetricAndAsymmetricLocal) := by
  unfold Miim.pauseOfCap
  refine ⟨fun h => ?_, fun h => ?_, fun h => ?_, fun h => ?_⟩ <;>
    rw [h.1, h.2]

/-- C4 witness: the amended table applied to the concrete word 32
(asymmetric-pause bit set, PAUSE bit clear). -/
theorem Miim.pause_decode_table_witness :
    Miim.pauseOfCap 32 = Miim.Pause.AsymmetricPartner :=
  (Miim.pause_decode_table 32).2.1 ⟨by decide, by decide⟩

/-- C9: pause encode/decode round-trips: every `Pause` variant survives
encode-then-decode, and each of the four two-bit pause words (0, 32, 64,
96) survives decode-then-encode. -/
theorem Miim.pause_roundtrip :
    (∀ p : Miim.Pause, Miim.pauseOfCap (Miim.capOfPause p) = p) ∧
    (∀ x : Nat, (x = 0 ∨ x = 32 ∨ x = 64 ∨ x = 96) →
      Miim.capOfPause (Miim.pauseOfCap x) = x) := by
  constructor
  · intro p
    cases p <;> decide
  · intro x h
    rcases h with h | h | h | h <;> subst h <;> decide

/-- C9 witness: the round-trip at the concrete pause word 96 and at the
concrete variant `Symmetric`. -/
theorem Miim.pause_roundtrip_witness :
    Miim.capOfPause (Miim.pauseOfCap 96) = 96 ∧
    Miim.pauseOfCap (Miim.capOfPause Miim.Pause.Symmetric) = Miim.Pause.Symmetric :=
  ⟨Miim.pause_roundtrip.2 96 (Or.inr (Or.inr (Or.inr rfl))),
   Miim.pause_roundtrip.1 Miim.Pause.Symmetric⟩

/-- C5: selector decode tests the patterns in the order 802.3, 802.5,
802.9-ISLAN-16T, 1394 with first match winning; a word containing both
the 802.3 and 802.5 patterns decodes to 802.3, and a word containing no
recognized pattern decodes to the failure value `none`, never a default
variant. -/
theorem Miim.selector_decode_precedence (x : Nat) :
    (Miim.containsBits x Miim.AutoNegCap.SEL_802_3 = true →
      Miim.selectorOfCap x = some Miim.SelectorField.Std802_3) ∧
    (Miim.containsBits x Miim.AutoNegCap.SEL_802_3 = false →
      Miim.containsBits x Miim.AutoNegCap.SEL_802_5 = true →
      Miim.selectorOfCap x = some Miim.SelectorField.Std802_5) ∧
    (Miim.containsBits x Miim.AutoNegCap.SEL_802_3 = false →
      Miim.containsBits x Miim.AutoNegCap.SEL_802_5 = false →
      Miim.containsBits x Miim.AutoNegCap.SEL_802_9_ISLAN_16T = true →
      Miim.selectorOfCap x = some Miim.SelectorField.Std802_9Islan16t) ∧
    (Miim.containsBits x Miim.AutoNegCap.SEL_802_3 = false →
      Miim.containsBits x Miim.AutoNegCap.SEL_802_5 = false →
      Miim.containsBits x Miim.AutoNegCap.SEL_802_9_ISLAN_16T = false →
      Miim.containsBits x Miim.AutoNegCap.SEL_1394 = true →
      Miim.selectorOfCap x = some Miim.SelectorField.Std1394) ∧
    ((Miim.containsBits x Miim.AutoNegCap.SEL_802_3 = true ∧
      Miim.containsBits x Miim.AutoNegCap.SEL_802_5 = true) →
      Miim.selectorOfCap x = some Miim.SelectorField.Std802_3) ∧
    ((Miim.containsBits x Miim.AutoNegCap.SEL_802_3 = false ∧
      Miim.containsBits x Miim.AutoNegCap.SEL_802_5 = false ∧
      Miim.containsBits x Miim.AutoNegCap.SEL_802_9_ISLAN_16T = false ∧
      Miim.containsBits x Miim.AutoNegCap.SEL_1394 = false) →
      Miim.selectorOfCap x = none) := by
  unfold Miim.selectorOfCap
  refine ⟨fun h1 => ?_, fun h1 h2 => ?_, fun h1 h2 h3 => ?_, fun h1 h2 h3 h4 => ?_,
    fun h => ?_, fun h => ?_⟩
  · rw [h1]; rfl
  · rw [h1, h2]; rfl
  · rw [h1, h2, h3]; rfl
  · rw [h1, h2, h3, h4]; rfl
  · rw [h.1]; rfl
  · rw [h.1, h.2.1, h.2.2.1, h.2.2.2]; rfl

/-- C5 witness: the word 3 contains both the 802.3 and 802.5 patterns
and decodes to 802.3; the word 0 contains no pattern and decodes to
`none`. -/
theorem Miim.selector_decode_precedence_witness :
    Miim.selectorOfCap 3 = some Miim.SelectorField.Std802_3 ∧
    Miim.selectorOfCap 0 = none :=
  ⟨(Miim.selector_decode_precedence 3).2.2.2.2.1 ⟨by decide, by decide⟩,
   (Miim.selector_decode_precedence 0).2.2.2.2.2 ⟨by decide, by decide, by decide, by decide⟩⟩

/-- C6: speed-selector decode is total over the four (MSB, LSB)
combinations per the table (0,0) → 10, (0,1) → 100, (1,0) → 1000,
(1,1) → Illegal, and encode yields exactly the corresponding bit for
the three legal speeds while failing on `Illegal`. -/
theorem Miim.link_speed_codec (v : Nat) :
    ((Miim.containsBits v Miim.Bcr.SPEED_SEL_MSB = false ∧
      Miim.containsBits v Miim.Bcr.SPEED_SEL_LSB = false) →
      Miim.linkSpeedOfBcr v = Miim.LinkSpeed.Mpbs10) ∧
    ((Miim.containsBits v Miim.Bcr.SPEED_SEL_MSB = false ∧
      Miim.containsBits v Miim.Bcr.SPEED_SEL_LSB = true) →
      Miim.linkSpeedOfBcr v = Miim.LinkSpeed.Mbps100) ∧
    ((Miim.containsBits v Miim.Bcr.SPEED_SEL_MSB = true ∧
      Miim.containsBits v Miim.Bcr.SPEED_SEL_LSB = false) →
      Miim.linkSpeedOfBcr v = Miim.LinkSpeed.Mpbs1000) ∧
    ((Miim.containsBits v Miim.Bcr.SPEED_SEL_MSB = true ∧
      Miim.containsBits v Miim.Bcr.SPEED_SEL_LSB = true) →
      Miim.linkSpeedOfBcr v = Miim.LinkSpeed.Illegal) ∧
    Miim.bcrOfLinkSpeed Miim.LinkSpeed.Mpbs10 = some 0 ∧
    Miim.bcrOfLinkSpeed Miim.LinkSpeed.Mbps100 = some Miim.Bcr.SPEED_SEL_LSB ∧
    Miim.bcrOfLinkSpeed Miim.LinkSpeed.Mpbs1000 = some Miim.Bcr.SPEED_SEL_MSB ∧
    Miim.bcrOfLinkSpeed Miim.LinkSpeed.Illegal = none := by
  unfold Miim.linkSpeedOfBcr
  refine ⟨fun h => ?_, fun h => ?_, fun h => ?_, fun h => ?_, rfl, rfl, rfl, rfl⟩ <;>
    rw [h.1, h.2]

/-- C6 witness: decode of the all-zero Control register is 10 Mb/s. -/
theorem Miim.link_speed_codec_witness :
    Miim.linkSpeedOfBcr 0 = Miim.LinkSpeed.Mpbs10 :=
  (Miim.link_speed_codec 0).1 ⟨by decide, by decide⟩

/-- C7 (counterexample): constructing the `Bcr` model from the transport
value 1 yields raw bits 0, not 1 — a bit assigned to no named flag is
cleared by `from_bits_truncate`, not preserved. -/
theorem Miim.bcr_model_drops_unknown_bits :
    (Miim.phyBcr (Miim.PhyState.start (fun _ => 1))).1 = 0 ∧
    (Miim.phyBcr (Miim.PhyState.start (fun _ => 1))).1 ≠ 1 :=
  ⟨by decide, by decide⟩

/-- C7 (amended): register-model construction is total over all 16-bit
values; the `Bsr` model (all 16 bits named) holds exactly the raw value,
while the `Bcr` model preserves every named-flag bit and clears the
bits assigned to no named flag. -/
theorem Miim.register_model_construction (v : Nat) (h : v < 65536) :
    Miim.Bsr.fromBitsTruncate v = v ∧
    Miim.Bcr.fromBitsTruncate v &&& Miim.Bcr.all = v &&& Miim.Bcr.all ∧
    Miim.Bcr.fromBitsTruncate v &&& (65535 ^^^ Miim.Bcr.all) = 0 := by
  refine ⟨?_, ?_, ?_⟩
  · show v &&& Miim.Bsr.all = v
    rw [(by decide : Miim.Bsr.all = 2 ^ 16 - 1)]
    exact Nat.and_pow_two_sub_one_of_lt_two_pow h
  · show (v &&& Miim.Bcr.all) &&& Miim.Bcr.all = v &&& Miim.Bcr.all
    rw [Nat.and_assoc, (by decide : Miim.Bcr.all &&& Miim.Bcr.all = Miim.Bcr.all)]
  · show (v &&& Miim.Bcr.all) &&& (65535 ^^^ Miim.Bcr.all) = 0
    rw [Nat.and_assoc,
      (by decide : Miim.Bcr.all &&& (65535 ^^^ Miim.Bcr.all) = 0), Nat.and_zero]

/-- C7 witness: the construction applied to the raw value 4660. -/
theorem Miim.register_model_construction_witness :
    Miim.Bsr.fromBitsTruncate 4660 = 4660 :=
  (Miim.register_model_construction 4660 (by decide)).1

/-- C1 (code_bug evaluation): with the Status register reading 1
(extended capabilities PRESENT) `set_autonegotiation_advertisement`
performs no write at all, and with it reading 0 (extended capabilities
ABSENT) it writes the capability word to register 4 — the inverse of
the claimed guard and of the function's own documentation. -/
theorem Miim.set_advertisement_guard_inverted :
    (Miim.setAutonegotiationAdvertisement (Miim.PhyState.start (fun _ => 1))
      Miim.defaultAdvertisement).log = [Miim.Event.read 1 1] ∧
    (Miim.setAutonegotiationAdvertisement (Miim.PhyState.start (fun _ => 0))
      Miim.defaultAdvertisement).log =
      [Miim.Event.read 1 0, Miim.Event.write 4 1] :=
  ⟨by decide, by decide⟩

/-- C2: the MMD indirect access performs, in order, the control write in
ADDRESS mode carrying the 5-bit-masked device address, the target
register-address write, the control write in DATA-no-post-increment
mode carrying the same masked device address, and then one data-register
read (for `Mmd::read`, exactly 3 writes, whose returned value is the
operation's result) or one data-register write of the value (for
`Mmd::write`, exactly 4 writes); a device address of 37 yields control
words carrying 37 &&& 31 = 5, silently masked. -/
theorem Miim.mmd_access_sequence (oracle : Nat → Nat) (d r v : Nat) :
    (Miim.mmdRead (Miim.PhyState.start oracle) d r).2.log =
      [Miim.Event.write 13 (d &&& 31), Miim.Event.write 14 (r % 65536),
       Miim.Event.write 13 (16384 ||| (d &&& 31)),
       Miim.Event.read 14 (oracle 0 % 65536)] ∧
    (Miim.mmdRead (Miim.PhyState.start oracle) d r).1 = oracle 0 % 65536 ∧
    ((Miim.mmdRead (Miim.PhyState.start oracle) d r).2.log.filter
      Miim.Event.isWrite).length = 3 ∧
    (Miim.mmdWrite (Miim.PhyState.start oracle) d r v).log =
      [Miim.Event.write 13 (d &&& 31), Miim.Event.write 14 (r % 65536),
       Miim.Event.write 13 (16384 ||| (d &&& 31)), Miim.Event.write 14 (v % 65536)] ∧
    ((Miim.mmdWrite (Miim.PhyState.start oracle) d r v).log.filter
      Miim.Event.isWrite).length = 4 ∧
    (Miim.mmdRead (Miim.PhyState.start oracle) 37 r).2.log.head? =
      some (Miim.Event.write 13 5) := by
  have hd : Miim.MmdAddress.deviceAddress d = d &&& 31 := by
    show (0 <<< 14) ||| (d &&& 31) = d &&& 31
    rw [(by decide : (0 : Nat) <<< 14 = 0), Nat.zero_or]
  have hc2 : Miim.insertBits (Miim.removeBits (d &&& 31)
      Miim.MmdAddress.ADDRESS) Miim.MmdAddress.DATA_NO_POSTINC = 16384 ||| (d &&& 31) := by
    show ((d &&& 31) &&& (65535 ^^^ Miim.MmdAddress.ADDRESS)) ||| Miim.MmdAddress.DATA_NO_POSTINC
      = 16384 ||| (d &&& 31)
    rw [(by decide : (65535 : Nat) ^^^ Miim.MmdAddress.ADDRESS = 65535), Nat.and_assoc,
      (by decide : (31 : Nat) &&& 65535 = 31),
      (by decide : Miim.MmdAddress.DATA_NO_POSTINC = 16384), Nat.lor_comm]
  have hrlog : (Miim.mmdRead (Miim.PhyState.start oracle) d r).2.log =
      [Miim.Event.write 13 (d &&& 31), Miim.Event.write 14 (r % 65536),
       Miim.Event.write 13 (16384 ||| (d &&& 31)),
       Miim.Event.read 14 (oracle 0 % 65536)] := by
    simp [Miim.mmdRead, Miim.PhyState.start, Miim.PhyState.writeReg, Miim.PhyState.readReg,
      Miim.MmdAddress.CONTROL_ADDRESS, Miim.MmdAddress.DATA_ADRESS_ADDRESS, hd, hc2]
  have hwlog : (Miim.mmdWrite (Miim.PhyState.start oracle) d r v).log =
      [Miim.Event.write 13 (d &&& 31), Miim.Event.write 14 (r % 65536),
       Miim.Event.write 13 (16384 ||| (d &&& 31)), Miim.Event.write 14 (v % 65536)] := by
    simp [Miim.mmdWrite, Miim.PhyState.start, Miim.PhyState.writeReg, Miim.PhyState.readReg,
      Miim.MmdAddress.CONTROL_ADDRESS, Miim.MmdAddress.DATA_ADRESS_ADDRESS, hd, hc2]
  refine ⟨hrlog, rfl, ?_, hwlog, ?_, rfl⟩
  · rw [hrlog]; rfl
  · rw [hwlog]; rfl

/-- Helper: one unfolding step of the poll loop. -/
theorem Miim.pollEvents_succ (f : Nat → Nat) (fuel : Nat) :
    Miim.pollEvents f (fuel + 1) =
      (if Miim.containsBits (Miim.Bcr.fromBitsTruncate (f 0 % 65536)) Miim.Bcr.RESET then
        (Miim.pollEvents (fun k => f (k + 1)) fuel).map
          (fun l => Miim.Event.read 0 (f 0 % 65536) :: l)
      else some [Miim.Event.read 0 (f 0 % 65536)]) := rfl

/-- Helper: a polling stream that reports RESET for exactly its first
`n` values makes the poll loop stop at poll `n`, with one read event
per poll. -/
theorem Miim.pollEvents_spec (n : Nat) :
    ∀ f : Nat → Nat, (∀ k, Miim.resetBitSet (f k) = decide (k < n)) →
    Miim.pollEvents f (n + 1) =
      some ((List.range (n + 1)).map (fun k => Miim.Event.read 0 (f k % 65536))) := by
  induction n with
  | zero =>
    intro f h
    have h0 : Miim.containsBits (Miim.Bcr.fromBitsTruncate (f 0 % 65536)) Miim.Bcr.RESET
        = false := h 0
    rw [Miim.pollEvents_succ, h0, if_neg Bool.false_ne_true]
    rfl
  | succ n ih =>
    intro f h
    have h0 : Miim.containsBits (Miim.Bcr.fromBitsTruncate (f 0 % 65536)) Miim.Bcr.RESET
        = true := by
      have := h 0
      simpa using this
    have hs : ∀ k, Miim.resetBitSet (f (k + 1)) = decide (k < n) := by
      intro k
      have := h (k + 1)
      simpa [Nat.add_lt_add_iff_right] using this
    have hrec := ih (fun k => f (k + 1)) hs
    rw [Miim.pollEvents_succ, h0, if_pos rfl, hrec]
    simp [List.range_succ_eq_map, List.map_map, Function.comp]

/-- C8: for every transport whose polls (reads after the initial
read-modify-write) report the RESET bit for exactly the first `n` polls
and report it cleared thereafter, `blocking_reset` terminates with the
log consisting of the read-modify-write followed by exactly `n + 1`
polls, the last poll being the first one that observes the bit cleared. -/
theorem Miim.blocking_reset_terminates (oracle : Nat → Nat) (n : Nat)
    (h : ∀ i, 1 ≤ i → Miim.resetBitSet (oracle i) = decide (i ≤ n)) :
    Miim.blockingReset oracle (n + 1) =
      some (Miim.Event.read 0 (oracle 0 % 65536) ::
        Miim.Event.write 0 (Miim.insertBits
          (Miim.Bcr.fromBitsTruncate (oracle 0 % 65536)) Miim.Bcr.RESET) ::
        (List.range (n + 1)).map (fun k => Miim.Event.read 0 (oracle (k + 1) % 65536))) ∧
    Miim.resetBitSet (oracle (n + 1)) = false := by
  have hs : ∀ k, Miim.resetBitSet (oracle (k + 1)) = decide (k < n) := by
    intro k
    have := h (k + 1) (Nat.le_add_left 1 k)
    simpa [Nat.lt_iff_add_one_le] using this
  have hrec := Miim.pollEvents_spec n (fun k => oracle (k + 1)) hs
  constructor
  · simp [Miim.blockingReset, hrec]
  · have := h (n + 1) (by omega)
    simpa using this

/-- C8 witness: a mock transport whose reads report RESET on reads 0, 1
and 2 and cleared from read 3 on; the loop performs exactly three polls
and stops at the read that observes the cleared bit. -/
theorem Miim.blocking_reset_terminates_witness :
    Miim.blockingReset (fun i => if i ≤ 2 then 32768 else 0) 3 =
      some [Miim.Event.read 0 32768, Miim.Event.write 0 32768,
        Miim.Event.read 0 32768, Miim.Event.read 0 32768, Miim.Event.read 0 0] := by
  have h := (Miim.blocking_reset_terminates (fun i => if i ≤ 2 then 32768 else 0) 2 ?hyp).1
  · rw [h]; rfl
  case hyp =>
    intro i hi
    by_cases hc : i ≤ 2
    · simp [hc, Miim.resetBitSet]
      decide
    · simp [hc, Miim.resetBitSet]
      decide

/-- Helper: frame property of a `setFlag`-based Control-register
mutator, for both values of the flag argument. -/
theorem Miim.setFlag_rmw (v F : Nat) (b : Bool)
    (h1 : Miim.Bcr.all &&& (Miim.Bcr.all ^^^ F) = Miim.Bcr.all ^^^ F)
    (h2 : F &&& (Miim.Bcr.all ^^^ F) = 0)
    (h3 : Miim.Bcr.all &&& ((65535 ^^^ F) &&& (Miim.Bcr.all ^^^ F)) = Miim.Bcr.all ^^^ F)
    (h4 : Miim.Bcr.all &&& (65535 ^^^ Miim.Bcr.all) = 0)
    (h5 : F &&& (65535 ^^^ Miim.Bcr.all) = 0)
    (h6 : Miim.Bcr.all &&& ((65535 ^^^ F) &&& (65535 ^^^ Miim.Bcr.all)) = 0) :
    Miim.setFlag (Miim.Bcr.fromBitsTruncate v) F b &&& (Miim.Bcr.all ^^^ F)
      = v &&& (Miim.Bcr.all ^^^ F) ∧
    Miim.setFlag (Miim.Bcr.fromBitsTruncate v) F b &&& (65535 ^^^ Miim.Bcr.all) = 0 := by
  cases b
  · exact ⟨Miim.frame_and_of v _ _ _ h3, Miim.zero_and_of v _ _ _ h6⟩
  · exact ⟨Miim.frame_or_of v _ _ _ h1 h2, Miim.zero_or_of v _ _ _ h4 h5⟩

/-- C10: every Control-register mutator of the `Phy` trait is a
read-modify-write: its log is one read of register 0 followed by one
write whose word agrees with the word read on every named `Bcr` bit
other than the flag(s) being modified (both speed-selector bits for
`set_link_speed`), while every bit outside the named `Bcr` flags is
written back as zero. -/
theorem Miim.bcr_mutators_rmw (oracle : Nat → Nat) (b : Bool) :
    Miim.bcrRmw (Miim.setLoopback (Miim.PhyState.start oracle) b) (oracle 0 % 65536)
      (Miim.setFlag (Miim.Bcr.fromBitsTruncate (oracle 0 % 65536)) Miim.Bcr.LOOPBACK b)
      Miim.Bcr.LOOPBACK ∧
    Miim.bcrRmw (Miim.setAutonegotiation (Miim.PhyState.start oracle) b) (oracle 0 % 65536)
      (Miim.setFlag (Miim.Bcr.fromBitsTruncate (oracle 0 % 65536)) Miim.Bcr.AUTONEG_ENABLE b)
      Miim.Bcr.AUTONEG_ENABLE ∧
    Miim.bcrRmw (Miim.setPoweredDown (Miim.PhyState.start oracle) b) (oracle 0 % 65536)
      (Miim.setFlag (Miim.Bcr.fromBitsTruncate (oracle 0 % 65536)) Miim.Bcr.POWER_DOWN b)
      Miim.Bcr.POWER_DOWN ∧
    Miim.bcrRmw (Miim.setIsolated (Miim.PhyState.start oracle) b) (oracle 0 % 65536)
      (Miim.setFlag (Miim.Bcr.fromBitsTruncate (oracle 0 % 65536)) Miim.Bcr.ISOLATE b)
      Miim.Bcr.ISOLATE ∧
    Miim.bcrRmw (Miim.setCollisionTest (Miim.PhyState.start oracle) b) (oracle 0 % 65536)
      (Miim.setFlag (Miim.Bcr.fromBitsTruncate (oracle 0 % 65536)) Miim.Bcr.COLLISION_TEST b)
      Miim.Bcr.COLLISION_TEST ∧
    Miim.bcrRmw (Miim.setUnidirectional (Miim.PhyState.start oracle) b) (oracle 0 % 65536)
      (Miim.setFlag (Miim.Bcr.fromBitsTruncate (oracle 0 % 65536))
        Miim.Bcr.UNIDIRECTIONAL_ENABLE b)
      Miim.Bcr.UNIDIRECTIONAL_ENABLE ∧
    Miim.bcrRmw (Miim.setFullDuplex (Miim.PhyState.start oracle) b) (oracle 0 % 65536)
      (Miim.setFlag (Miim.Bcr.fromBitsTruncate (oracle 0 % 65536)) Miim.Bcr.DUPLEX_MODE b)
      Miim.Bcr.DUPLEX_MODE ∧
    Miim.bcrRmw (Miim.restartAutonegotiation (Miim.PhyState.start oracle)) (oracle 0 % 65536)
      (Miim.insertBits (Miim.Bcr.fromBitsTruncate (oracle 0 % 65536)) Miim.Bcr.RESTART_AUTONEG)
      Miim.Bcr.RESTART_AUTONEG ∧
    Miim.bcrRmw (Miim.resetPhy (Miim.PhyState.start oracle)) (oracle 0 % 65536)
      (Miim.setFlag (Miim.Bcr.fromBitsTruncate (oracle 0 % 65536)) Miim.Bcr.RESET true)
      Miim.Bcr.RESET ∧
    (∀ (ls : Miim.LinkSpeed) (w : Nat), Miim.bcrOfLinkSpeed ls = some w →
      ∃ s, Miim.setLinkSpeed (Miim.PhyState.start oracle) ls = some s ∧
        Miim.bcrRmw s (oracle 0 % 65536)
          (Miim.insertBits (Miim.removeBits (Miim.Bcr.fromBitsTruncate (oracle 0 % 65536))
            (Miim.Bcr.SPEED_SEL_MSB ||| Miim.Bcr.SPEED_SEL_LSB)) w)
          (Miim.Bcr.SPEED_SEL_MSB ||| Miim.Bcr.SPEED_SEL_LSB)) := by
  refine ⟨?_, ?_, ?_, ?_, ?_, ?_, ?_, ?_, ?_, ?_⟩
  · have hh := Miim.setFlag_rmw (oracle 0 % 65536) Miim.Bcr.LOOPBACK b
      (by decide) (by decide) (by decide) (by decide) (by decide) (by decide)
    exact ⟨rfl, hh.1, hh.2⟩
  · have hh := Miim.setFlag_rmw (oracle 0 % 65536) Miim.Bcr.AUTONEG_ENABLE b
      (by decide) (by decide) (by decide) (by decide) (by decide) (by decide)
    exact ⟨rfl, hh.1, hh.2⟩
  · have hh := Miim.setFlag_rmw (oracle 0 % 65536) Miim.Bcr.POWER_DOWN b
      (by decide) (by decide) (by decide) (by decide) (by decide) (by decide)
    exact ⟨rfl, hh.1, hh.2⟩
  · have hh := Miim.setFlag_rmw (oracle 0 % 65536) Miim.Bcr.ISOLATE b
      (by decide) (by decide) (by decide) (by decide) (by decide) (by decide)
    exact ⟨rfl, hh.1, hh.2⟩
  · have hh := Miim.setFlag_rmw (oracle 0 % 65536) Miim.Bcr.COLLISION_TEST b
      (by decide) (by decide) (by decide) (by decide) (by decide) (by decide)
    exact ⟨rfl, hh.1, hh.2⟩
  · have hh := Miim.setFlag_rmw (oracle 0 % 65536) Miim.Bcr.UNIDIRECTIONAL_ENABLE b
      (by decide) (by decide) (by decide) (by decide) (by decide) (by decide)
    exact ⟨rfl, hh.1, hh.2⟩
  · have hh := Miim.setFlag_rmw (oracle 0 % 65536) Miim.Bcr.DUPLEX_MODE b
      (by decide) (by decide) (by decide) (by decide) (by decide) (by decide)
    exact ⟨rfl, hh.1, hh.2⟩
  · have h1 := Miim.frame_or_of (oracle 0 % 65536) Miim.Bcr.all Miim.Bcr.RESTART_AUTONEG
      (Miim.Bcr.all ^^^ Miim.Bcr.RESTART_AUTONEG) (by decide) (by decide)
    have h2 := Miim.zero_or_of (oracle 0 % 65536) Miim.Bcr.all Miim.Bcr.RESTART_AUTONEG
      (65535 ^^^ Miim.Bcr.all) (by decide) (by decide)
    exact ⟨rfl, h1, h2⟩
  · have hh := Miim.setFlag_rmw (oracle 0 % 65536) Miim.Bcr.RESET true
      (by decide) (by decide) (by decide) (by decide) (by decide) (by decide)
    exact ⟨rfl, hh.1, hh.2⟩
  · intro ls w hw
    cases ls
    case Mpbs1000 =>
      injection hw with hw
      subst hw
      have h1 := Miim.frame_and_or_of (oracle 0 % 65536) Miim.Bcr.all
        (65535 ^^^ (Miim.Bcr.SPEED_SEL_MSB ||| Miim.Bcr.SPEED_SEL_LSB)) Miim.Bcr.SPEED_SEL_MSB
        (Miim.Bcr.all ^^^ (Miim.Bcr.SPEED_SEL_MSB ||| Miim.Bcr.SPEED_SEL_LSB))
        (by decide) (by decide)
      have h2 := Miim.zero_and_or_of (oracle 0 % 65536) Miim.Bcr.all
        (65535 ^^^ (Miim.Bcr.SPEED_SEL_MSB ||| Miim.Bcr.SPEED_SEL_LSB)) Miim.Bcr.SPEED_SEL_MSB
        (65535 ^^^ Miim.Bcr.all) (by decide) (by decide)
      exact ⟨_, rfl, rfl, h1, h2⟩
    case Mbps100 =>
      injection hw with hw
      subst hw
      have h1 := Miim.frame_and_or_of (oracle 0 % 65536) Miim.Bcr.all
        (65535 ^^^ (Miim.Bcr.SPEED_SEL_MSB ||| Miim.Bcr.SPEED_SEL_LSB)) Miim.Bcr.SPEED_SEL_LSB
        (Miim.Bcr.all ^^^ (Miim.Bcr.SPEED_SEL_MSB ||| Miim.Bcr.SPEED_SEL_LSB))
        (by decide) (by decide)
      have h2 := Miim.zero_and_or_of (oracle 0 % 65536) Miim.Bcr.all
        (65535 ^^^ (Miim.Bcr.SPEED_SEL_MSB ||| Miim.Bcr.SPEED_SEL_LSB)) Miim.Bcr.SPEED_SEL_LSB
        (65535 ^^^ Miim.Bcr.all) (by decide) (by decide)
      exact ⟨_, rfl, rfl, h1, h2⟩
    case Mpbs10 =>
      injection hw with hw
      subst hw
      have h1 := Miim.frame_and_or_of (oracle 0 % 65536) Miim.Bcr.all
        (65535 ^^^ (Miim.Bcr.SPEED_SEL_MSB ||| Miim.Bcr.SPEED_SEL_LSB)) 0
        (Miim.Bcr.all ^^^ (Miim.Bcr.SPEED_SEL_MSB ||| Miim.Bcr.SPEED_SEL_LSB))
        (by decide) (by decide)
      have h2 := Miim.zero_and_or_of (oracle 0 % 65536) Miim.Bcr.all
        (65535 ^^^ (Miim.Bcr.SPEED_SEL_MSB ||| Miim.Bcr.SPEED_SEL_LSB)) 0
        (65535 ^^^ Miim.Bcr.all) (by decide) (by decide)
      exact ⟨_, rfl, rfl, h1, h2⟩
    case Illegal =>
      simp [Miim.bcrOfLinkSpeed] at hw

/-- C10 witness: `set_link_speed` to 100 Mb/s against an all-ones
Control-register read. -/
theorem Miim.bcr_mutators_rmw_witness :
    ∃ s, Miim.setLinkSpeed (Miim.PhyState.start (fun _ => 65535)) Miim.LinkSpeed.Mbps100
        = some s ∧
      Miim.bcrRmw s 65535
        (Miim.insertBits (Miim.removeBits (Miim.Bcr.fromBitsTruncate 65535)
          (Miim.Bcr.SPEED_SEL_MSB ||| Miim.Bcr.SPEED_SEL_LSB)) Miim.Bcr.SPEED_SEL_LSB)
        (Miim.Bcr.SPEED_SEL_MSB ||| Miim.Bcr.SPEED_SEL_LSB) :=
  (Miim.bcr_mutators_rmw (fun _ => 65535) true).2.2.2.2.2.2.2.2.2
    Miim.LinkSpeed.Mbps100 Miim.Bcr.SPEED_SEL_LSB rfl

/-- Helper: bit-level characterization of the capability word built by
the advertisement encode. -/
theorem Miim.anaWord_spec (st : Miim.PhyStatus) (ad : Miim.AutoNegotiationAdvertisement) :
    Miim.containsBits (Miim.anaWord st ad) Miim.AutoNegCap._10BASET
      = (ad.hd_10base_t && st.hd_10mbps) ∧
    Miim.containsBits (Miim.anaWord st ad) Miim.AutoNegCap._10BASETFD
      = (ad.fd_10base_t && st.fd_10mbps) ∧
    Miim.containsBits (Miim.anaWord st ad) Miim.AutoNegCap._100BASETX
      = (ad.hd_100base_tx && st.hd_100base_x) ∧
    Miim.containsBits (Miim.anaWord st ad) Miim.AutoNegCap._100BASETXFD
      = (ad.fd_100base_tx && st.fd_100base_x) ∧
    Miim.containsBits (Miim.anaWord st ad) Miim.AutoNegCap._100BASET4 = ad.base100_t4 ∧
    Miim.anaWord st ad &&& 31 = Miim.capOfSelectorField ad.selector_field ∧
    Miim.anaWord st ad &&& (Miim.AutoNegCap.PAUSE ||| Miim.AutoNegCap.ASSYMETRIC_PAUSE)
      = Miim.capOfPause ad.pause := by
  cases hsel : ad.selector_field <;> cases hp : ad.pause <;>
    cases h1 : ad.hd_10base_t && st.hd_10mbps <;>
    cases h2 : ad.fd_10base_t && st.fd_10mbps <;>
    cases h3 : ad.hd_100base_tx && st.hd_100base_x <;>
    cases h4 : ad.fd_100base_tx && st.fd_100base_x <;>
    cases h5 : ad.base100_t4 <;>
    simp only [Miim.anaWord, h1, h2, h3, h4, h5, hsel, hp, if_true, if_false] <;> decide

/-- C3: whenever `set_autonegotiation_advertisement` writes, it writes
`anaWord status ad` to register 4, and in that word each 10/100
technology-ability bit is set iff the advertisement requests it AND the
status reports the matching capability, the 100BASE-T4 bit is set iff
the advertisement requests it (no status cross-check), and the
selector-field bits and pause bits are inserted verbatim from the
advertisement. -/
theorem Miim.advertisement_encode_gating (oracle : Nat → Nat)
    (ad : Miim.AutoNegotiationAdvertisement)
    (h : (Miim.statusOfBsr (Miim.Bsr.fromBitsTruncate (oracle 0 % 65536))).extended_caps
      = false) :
    ((Miim.setAutonegotiationAdvertisement (Miim.PhyState.start oracle) ad).log =
      [Miim.Event.read 1 (oracle 0 % 65536),
       Miim.Event.write 4 (Miim.anaWord
         (Miim.statusOfBsr (Miim.Bsr.fromBitsTruncate (oracle 0 % 65536))) ad)]) ∧
    (∀ st : Miim.PhyStatus,
      Miim.containsBits (Miim.anaWord st ad) Miim.AutoNegCap._10BASET
        = (ad.hd_10base_t && st.hd_10mbps) ∧
      Miim.containsBits (Miim.anaWord st ad) Miim.AutoNegCap._10BASETFD
        = (ad.fd_10base_t && st.fd_10mbps) ∧
      Miim.containsBits (Miim.anaWord st ad) Miim.AutoNegCap._100BASETX
        = (ad.hd_100base_tx && st.hd_100base_x) ∧
      Miim.containsBits (Miim.anaWord st ad) Miim.AutoNegCap._100BASETXFD
        = (ad.fd_100base_tx && st.fd_100base_x) ∧
      Miim.containsBits (Miim.anaWord st ad) Miim.AutoNegCap._100BASET4 = ad.base100_t4 ∧
      Miim.anaWord st ad &&& 31 = Miim.capOfSelectorField ad.selector_field ∧
      Miim.anaWord st ad &&& (Miim.AutoNegCap.PAUSE ||| Miim.AutoNegCap.ASSYMETRIC_PAUSE)
        = Miim.capOfPause ad.pause) := by
  constructor
  · simp [Miim.setAutonegotiationAdvertisement, Miim.phyBsr, Miim.PhyState.start,
      Miim.PhyState.readReg, Miim.PhyState.writeReg, Miim.Bsr.ADDRESS,
      Miim.AutoNegCap.LOCAL_CAP_ADDRESS, h]
  · intro st
    exact Miim.anaWord_spec st ad

/-- C3 witness: a transport whose Status register reads as 0 (extended
capabilities absent, so the source's write branch runs) with the default
advertisement: the written word is the bare 802.3 selector. -/
theorem Miim.advertisement_encode_gating_witness :
    (Miim.setAutonegotiationAdvertisement (Miim.PhyState.start (fun _ => 0))
      Miim.defaultAdvertisement).log =
      [Miim.Event.read 1 0, Miim.Event.write 4 (Miim.anaWord
        (Miim.statusOfBsr (Miim.Bsr.fromBitsTruncate 0)) Miim.defaultAdvertisement)] :=
  (Miim.advertisement_encode_gating (fun _ => 0) Miim.defaultAdvertisement (by decide)).1
